import Mathlib

set_option autoImplicit false

/-!
Verification development for the wine-quality MLflow training script
(train.py).  The script is embedded shallowly: pandas tables become lists
of rows, the MLflow tracking store becomes an explicit event trace, and
every fallible external operation is driven by a failure-injection
environment.  All definitions follow the source line by line; the two
definitions that follow the wording of the specification instead are
marked as such in their doc comments.
-/

/-- Column dtype of a loaded table (pandas dtypes, numeric only here). -/
inductive DType where
  | float64
  | int64
deriving DecidableEq, Repr

/-- A model signature: input schema (column names and dtypes) and an
output dtype, as produced by the mlflow infer_signature helper. -/
structure Signature where
  inputs : List (String × DType)
  outputs : DType
deriving DecidableEq, Repr

/-- A pandas DataFrame: a header of named, typed columns and rows of
numeric values aligned with the header. -/
structure Table where
  cols : List (String × DType)
  rows : List (List ℚ)
deriving DecidableEq, Repr

/-- The column names of a table. -/
def Table.colNames (t : Table) : List String := t.cols.map Prod.fst

/-- The values of the first column of a single-column table (used to read
the label vector out of the y tables). -/
def Table.firstCol (t : Table) : List ℚ := t.rows.filterMap List.head?

/-- Exceptions raised by pandas read_csv. -/
inductive PdError where
  | fileNotFound
  | parserError
deriving DecidableEq, Repr

/-- Python exception values that can escape the embedded code.  The two
final constructors are Modelled from the spec: the spec names a custom
taxonomy (DataLoadError, SchemaError) that does not occur anywhere in the
source; they are included only so the corresponding claim can be stated,
and no embedded code path ever produces them. -/
inductive Err where
  | pandas (e : PdError)
  | keyError (k : String)
  | typeError
  | external (code : Nat)
  | dataLoadError
  | schemaError
deriving DecidableEq, Repr

/-- The fallible external operations invoked in the run body
(steps 2 to 10 of the spec state machine). -/
inductive Op where
  | fit
  | predict
  | logParamMaxDepth
  | logParamMaxLeafNodes
  | logMetricRmse
  | logMetricR2
  | logMetricMae
  | logModelOp
  | registerModelOp
  | onnxLogOp
  | plotCreate
  | plotLogArtifact
  | writeOutputFile
deriving DecidableEq, Repr

/-- Terminal status of a closed MLflow run. -/
inductive RunStatus where
  | finished
  | failed
deriving DecidableEq, Repr

/-- Values carried by MLflow tags.  The constructors fmtSeconds and
fmtMillis are Modelled from the spec: fmt_ts_seconds and fmt_ts_millis
live in wine_quality.timestamp_utils, which is not part of the sources
here; per the spec they are human-readable renderings at second and at
millisecond precision, hence distinct formats, modelled as distinct
constructors applied to the raw timestamp. -/
inductive TagVal where
  | str (s : String)
  | optStr (s : Option String)
  | boolV (b : Bool)
  | raw (t : Int)
  | fmtSeconds (t : Int)
  | fmtMillis (t : Int)
deriving DecidableEq, Repr

/-- Values carried by MLflow metrics.  The rmse value np.sqrt(mse) is an
irrational real; it is carried symbolically as sqrtVal applied to the
rational mean squared error. -/
inductive MetricVal where
  | val (q : ℚ)
  | sqrtVal (q : ℚ)
deriving DecidableEq, Repr

/-- One observable effect of the script, in program order. -/
inductive Event where
  | readData (path : String)
  | setExperiment (name : String)
  | setExpTag (key val : String)
  | openRun (runName : Option String)
  | setTag (key : String) (v : TagVal)
  | logParam (key : String) (v : Option Nat)
  | logMetric (key : String) (v : MetricVal)
  | logModel (sig : Option Signature)
  | registerModel (name stage : String) (archive : Bool)
  | onnxLogModel (name : Option String)
  | logArtifact (file : String)
  | writeFile (path content : String)
  | closeRun (s : RunStatus)
  | clientSetTag (runId key : String) (v : TagVal)
deriving DecidableEq, Repr

/-- Whether an event is the close of the run context. -/
def Event.isCloseRun : Event → Bool
  | .closeRun _ => true
  | _ => false

/-- Whether an event is an experiment-level effect (experiment selection
or an experiment tag), as performed by the Trainer constructor. -/
def Event.isExperimentEvent : Event → Bool
  | .setExperiment _ => true
  | .setExpTag _ _ => true
  | _ => false

/-- Whether an event is a client tag write carrying a raw timestamp. -/
def Event.hasRawTag : Event → Bool
  | .clientSetTag _ _ (.raw _) => true
  | _ => false

/-- Whether an event is a client tag write carrying a second-precision
formatted timestamp. -/
def Event.hasSecondsFmt : Event → Bool
  | .clientSetTag _ _ (.fmtSeconds _) => true
  | _ => false

/-- Whether an event is a client tag write carrying a millisecond-precision
formatted timestamp. -/
def Event.hasMillisFmt : Event → Bool
  | .clientSetTag _ _ (.fmtMillis _) => true
  | _ => false

/-- Python truthiness of an optional string: None and the empty string are
falsy, every other string is truthy. -/
def truthyOpt : Option String → Bool
  | none => false
  | some s => !(s == "")

/-- The replacement performed on characters by the Python expression
output_path.replace("dbfs:", "/dbfs"): every occurrence of the pattern is
rewritten, scanning left to right. -/
def replaceDbfsChars : List Char → List Char
  | 'd' :: 'b' :: 'f' :: 's' :: ':' :: rest =>
      '/' :: 'd' :: 'b' :: 'f' :: 's' :: replaceDbfsChars rest
  | c :: rest => c :: replaceDbfsChars rest
  | [] => []

/-- The path normalization the source applies before writing the run id:
str.replace of every occurrence of dbfs: by /dbfs. -/
def replace_dbfs (s : String) : String := ⟨replaceDbfsChars s.data⟩

/-- Modelled from the spec: the path normalization as the spec words it,
rewriting a leading dbfs: prefix, and only a leading prefix, to /dbfs.
Stated solely for comparison with replace_dbfs. -/
def spec_normalize (s : String) : String :=
  match s.data with
  | 'd' :: 'b' :: 'f' :: 's' :: ':' :: rest => ⟨'/' :: 'd' :: 'b' :: 'f' :: 's' :: rest⟩
  | _ => s

/-- The label column of the dataset (module-level col_label). -/
def col_label : String := "quality"

/-- Number of holdout rows chosen by sklearn train_test_split for
test_size 0.30: the ceiling of 0.30 times the row count, written over
naturals as the ceiling of 3 n / 10. -/
def testCount (n : Nat) : Nat := (3 * n + 9) / 10

/-- sklearn train_test_split with test_size 0.30: the rows are permuted by
the seeded random permutation perm of the index range, the first testCount
rows of the permuted order form the test partition and the remaining rows
form the train partition; the pair (train, test) is returned in source
order. -/
def train_test_split {α : Type} (rows : List α) (perm : List Nat) : List α × List α :=
  let shuffled := perm.filterMap (fun i => rows.get? i)
  (shuffled.drop (testCount rows.length), shuffled.take (testCount rows.length))

/-- sklearn mean_squared_error: the mean of the squared differences. -/
def mean_squared_error (yt yp : List ℚ) : ℚ :=
  (List.zipWith (fun a b => (a - b) ^ 2) yt yp).sum / yt.length

/-- sklearn mean_absolute_error: the mean of the absolute differences. -/
def mean_absolute_error (yt yp : List ℚ) : ℚ :=
  (List.zipWith (fun a b => |a - b|) yt yp).sum / yt.length

/-- sklearn r2_score: one minus the ratio of residual to total squared
variation. -/
def r2_score (yt yp : List ℚ) : ℚ :=
  1 - (List.zipWith (fun a b => (a - b) ^ 2) yt yp).sum /
      (yt.map (fun a => (a - yt.sum / yt.length) ^ 2)).sum

/-- np.sqrt applied to the sklearn mean squared error: the rmse value the
script logs, as a real number. -/
noncomputable def rmse (yt yp : List ℚ) : ℝ := Real.sqrt (mean_squared_error yt yp)

/-- mlflow infer_signature on a DataFrame input example and an ndarray of
predictions: the input schema records the input columns with their names
and dtypes, the output schema records the float dtype of the prediction
vector. -/
def infer_signature (x : Table) (_predictions : List ℚ) : Signature :=
  ⟨x.cols, DType.float64⟩

/-- The external world and failure-injection environment: the content the
pandas loader yields per path, the seeded numpy permutation per row count,
the identifiers and version strings the libraries produce, the holdout
predictions of the fitted estimator, the store-recorded run timestamps,
and the exception, if any, each fallible body operation raises. -/
structure Env where
  readCsv : String → Except PdError Table
  perm : Nat → List Nat
  run_id : String
  experiment_id : String
  uuid : String
  now : String
  mlflowVersion : String
  sklearnVersion : String
  platformStr : String
  pythonVersion : String
  predictions : List ℚ
  startTime : Int
  endTime : Int
  failAt : Op → Option Err

/-- The constructor arguments of Trainer. -/
structure Config where
  experiment_name : Option String
  data_path : String
  log_as_onnx : Bool
  save_signature : Bool
  run_origin : Option String
  use_run_id_as_run_name : Bool

/-- The arguments of Trainer.train. -/
structure TrainArgs where
  registered_model_name : Option String
  registered_model_version_stage : String
  archive_existing_versions : Bool
  output_path : Option String
  max_depth : Option Nat
  max_leaf_nodes : Nat

/-- A constructed Trainer: its configuration and the four tables produced
by _build_data. -/
structure TrainerState where
  cfg : Config
  X_train : Table
  X_test : Table
  y_train : Table
  y_test : Table

/-- pandas drop of one column (axis 1): raises KeyError when the label is
absent, otherwise removes the column from header and rows. -/
def dropCol (t : Table) (c : String) : Except Err Table :=
  if c ∈ t.colNames then
    .ok ⟨t.cols.filter (fun p => p.1 != c),
         t.rows.map (fun r => ((t.cols.zip r).filter (fun p => p.1.1 != c)).map Prod.snd)⟩
  else .error (.keyError c)

/-- pandas double-bracket selection of one column: raises KeyError when
the label is absent, otherwise keeps exactly that column. -/
def selectCol (t : Table) (c : String) : Except Err Table :=
  if c ∈ t.colNames then
    .ok ⟨t.cols.filter (fun p => p.1 == c),
         t.rows.map (fun r => ((t.cols.zip r).filter (fun p => p.1.1 == c)).map Prod.snd)⟩
  else .error (.keyError c)

/-- Trainer._build_data: read the csv, split it with test_size 0.30 and
the seeded permutation, then derive X_train, X_test, y_train, y_test by
dropping respectively selecting the label column.  The read is recorded
as an event; errors escape unwrapped, exactly as in the source. -/
def build_data (env : Env) (data_path : String) :
    Except Err (Table × Table × Table × Table) × List Event :=
  match env.readCsv data_path with
  | .error pe => (.error (.pandas pe), [Event.readData data_path])
  | .ok data =>
    let split := train_test_split data.rows (env.perm data.rows.length)
    let trainT : Table := ⟨data.cols, split.1⟩
    let testT : Table := ⟨data.cols, split.2⟩
    let r : Except Err (Table × Table × Table × Table) := do
      let xtr ← dropCol trainT col_label
      let xte ← dropCol testT col_label
      let ytr ← selectCol trainT col_label
      let yte ← selectCol testT col_label
      pure (xtr, xte, ytr, yte)
    (r, [Event.readData data_path])

/-- The experiment-level effects of the Trainer constructor: performed
only when the experiment name is truthy, as in the source guard. -/
def initEvents (env : Env) (cfg : Config) : List Event :=
  if truthyOpt cfg.experiment_name then
    [Event.setExperiment (cfg.experiment_name.getD ""),
     Event.setExpTag "version_mlflow" env.mlflowVersion,
     Event.setExpTag "experiment_created" env.now]
  else []

/-- Trainer.__init__: build the data (propagating its errors), then, when
an experiment name is supplied and truthy, select the experiment and set
the two experiment tags. -/
def trainerInit (env : Env) (cfg : Config) : Except Err TrainerState × List Event :=
  match build_data env cfg.data_path with
  | (.error e, evs) => (.error e, evs)
  | (.ok (xtr, xte, ytr, yte), evs) =>
    (.ok ⟨cfg, xtr, xte, ytr, yte⟩, evs ++ initEvents env cfg)

/-- The run name passed to mlflow.start_run: a formatted string when the
run origin is truthy, otherwise None. -/
def runName (env : Env) (cfg : Config) : Option String :=
  match cfg.run_origin with
  | some o => if o = "" then none else some (env.now ++ " " ++ o ++ " " ++ env.mlflowVersion)
  | none => none

/-- One straight-line step of the run body: an optional fallible operation
gate and the events the step emits when it succeeds. -/
structure BodyStep where
  op : Option Op
  events : List Event

/-- Execute the body steps in order: a step whose operation raises stops
execution with that error (emitting nothing further); otherwise the step
events are appended and execution continues. -/
def runSteps (env : Env) : List BodyStep → Except Err Unit × List Event
  | [] => (.ok (), [])
  | s :: rest =>
    match s.op with
    | some o =>
      match env.failAt o with
      | some e => (.error e, [])
      | none =>
        let res := runSteps env rest
        (res.1, s.events ++ res.2)
    | none =>
      let res := runSteps env rest
      (res.1, s.events ++ res.2)

/-- The opening of the run context (mlflow.start_run). -/
def openSteps (env : Env) (cfg : Config) : List BodyStep :=
  [⟨none, [Event.openRun (runName env cfg)]⟩]

/-- Step 1 of the body: the static run tags, in source order; the run-name
override tag is written first and only when requested. -/
def tagSteps (env : Env) (cfg : Config) (a : TrainArgs) : List BodyStep :=
  (if cfg.use_run_id_as_run_name then
    [⟨none, [Event.setTag "mlflow.runName" (.str env.run_id)]⟩]
  else []) ++
  [⟨none, [Event.setTag "run_id" (.str env.run_id),
           Event.setTag "save_signature" (.boolV cfg.save_signature),
           Event.setTag "data_path" (.str cfg.data_path),
           Event.setTag "registered_model_name" (.optStr a.registered_model_name),
           Event.setTag "registered_model_version_stage" (.str a.registered_model_version_stage),
           Event.setTag "uuid" (.str env.uuid),
           Event.setTag "dataset" (.str "wine-quality"),
           Event.setTag "run_origin" (.optStr cfg.run_origin),
           Event.setTag "timestamp" (.str env.now),
           Event.setTag "version.mlflow" (.str env.mlflowVersion),
           Event.setTag "version.sklearn" (.str env.sklearnVersion),
           Event.setTag "version.platform" (.str env.platformStr),
           Event.setTag "version.python" (.str env.pythonVersion)]⟩]

/-- The model signature the script attaches: computed from the training
features and the holdout predictions only when signature saving is
enabled, otherwise None. -/
def signatureOf (env : Env) (st : TrainerState) : Option Signature :=
  if st.cfg.save_signature then some (infer_signature st.X_train env.predictions) else none

/-- Steps 2 to 6 of the body: fit, predict, the two params, the three
metrics (logged in the source order rmse, r2, mae), and the model with its
optional signature. -/
def coreSteps (env : Env) (st : TrainerState) (a : TrainArgs) : List BodyStep :=
  [⟨some .fit, []⟩,
   ⟨some .predict, []⟩,
   ⟨some .logParamMaxDepth, [Event.logParam "max_depth" a.max_depth]⟩,
   ⟨some .logParamMaxLeafNodes, [Event.logParam "max_leaf_nodes" (some a.max_leaf_nodes)]⟩,
   ⟨some .logMetricRmse,
     [Event.logMetric "rmse" (.sqrtVal (mean_squared_error st.y_test.firstCol env.predictions))]⟩,
   ⟨some .logMetricR2,
     [Event.logMetric "r2" (.val (r2_score st.y_test.firstCol env.predictions))]⟩,
   ⟨some .logMetricMae,
     [Event.logMetric "mae" (.val (mean_absolute_error st.y_test.firstCol env.predictions))]⟩,
   ⟨some .logModelOp, [Event.logModel (signatureOf env st)]⟩]

/-- Step 7: registration, only when a registered model name is truthy. -/
def registerSteps (a : TrainArgs) : List BodyStep :=
  if truthyOpt a.registered_model_name then
    [⟨some .registerModelOp,
      [Event.registerModel (a.registered_model_name.getD "")
        a.registered_model_version_stage a.archive_existing_versions]⟩]
  else []

/-- Step 8: ONNX export, only when requested. -/
def onnxSteps (cfg : Config) (a : TrainArgs) : List BodyStep :=
  if cfg.log_as_onnx then
    [⟨some .onnxLogOp, [Event.onnxLogModel a.registered_model_name]⟩]
  else []

/-- Step 9: render the evaluation plot and log it as an artifact. -/
def plotSteps : List BodyStep :=
  [⟨some .plotCreate, []⟩,
   ⟨some .plotLogArtifact, [Event.logArtifact "plot.png"]⟩]

/-- Step 10: when an output path is truthy, tag the run with the original
path and write the run id to the path with every dbfs: occurrence
rewritten. -/
def outputSteps (env : Env) (a : TrainArgs) : List BodyStep :=
  match a.output_path with
  | some p =>
    if p = "" then []
    else
      [⟨none, [Event.setTag "output_path" (.str p)]⟩,
       ⟨some .writeOutputFile, [Event.writeFile (replace_dbfs p) env.run_id]⟩]
  | none => []

/-- The full ordered body of the with-block of Trainer.train. -/
def bodySteps (env : Env) (st : TrainerState) (a : TrainArgs) : List BodyStep :=
  openSteps env st.cfg ++ tagSteps env st.cfg a ++ coreSteps env st a ++
  registerSteps a ++ onnxSteps st.cfg a ++ plotSteps ++ outputSteps env a

/-- The events of a successful run body, in order. -/
def bodyTrace (env : Env) (st : TrainerState) (a : TrainArgs) : List Event :=
  ((bodySteps env st a).map BodyStep.events).flatten

/-- The four post-close tag writes of Trainer.train: the raw start and end
timestamps re-read from the closed run, and their fmt_ts_millis
renderings. -/
def postCloseTags (env : Env) : List Event :=
  [Event.clientSetTag env.run_id "run.info.start_time" (.raw env.startTime),
   Event.clientSetTag env.run_id "run.info.end_time" (.raw env.endTime),
   Event.clientSetTag env.run_id "run.info._start_time" (.fmtMillis env.startTime),
   Event.clientSetTag env.run_id "run.info._end_time" (.fmtMillis env.endTime)]

/-- Trainer.train: run the body inside the run context.  The with-block
guarantees the context is closed on every exit: on a body error the run is
closed as failed and the original error is re-raised to the caller; on
normal completion the run is closed as finished, the post-close timing
tags are written, and the experiment and run identifiers are returned. -/
def train (env : Env) (st : TrainerState) (a : TrainArgs) :
    Except Err (String × String) × List Event :=
  match runSteps env (bodySteps env st a) with
  | (.error e, tr) => (.error e, tr ++ [Event.closeRun .failed])
  | (.ok _, tr) =>
    (.ok (env.experiment_id, env.run_id),
     tr ++ Event.closeRun .finished :: postCloseTags env)

/-- The twelve required positional parameters of main, in source order. -/
def mainParams : List String :=
  ["experiment_name", "data_path", "model_name", "model_version_stage",
   "archive_existing_versions", "save_signature", "log_as_onnx", "max_depth",
   "max_leaf_nodes", "run_origin", "output_path", "use_run_id_as_run_name"]

/-- The twelve argument values main would receive. -/
structure MainArgs where
  experiment_name : Option String
  data_path : String
  model_name : Option String
  model_version_stage : String
  archive_existing_versions : Bool
  save_signature : Bool
  log_as_onnx : Bool
  max_depth : Option Nat
  max_leaf_nodes : Nat
  run_origin : Option String
  output_path : Option String
  use_run_id_as_run_name : Bool

/-- The Trainer constructor arguments main passes. -/
def cfgOf (a : MainArgs) : Config :=
  ⟨a.experiment_name, a.data_path, a.log_as_onnx, a.save_signature,
   a.run_origin, a.use_run_id_as_run_name⟩

/-- The Trainer.train arguments main passes. -/
def targsOf (a : MainArgs) : TrainArgs :=
  ⟨a.model_name, a.model_version_stage, a.archive_existing_versions,
   a.output_path, a.max_depth, a.max_leaf_nodes⟩

/-- The body of main: construct the Trainer, then train. -/
def mainRun (env : Env) (a : MainArgs) : Except Err Unit × List Event :=
  match trainerInit env (cfgOf a) with
  | (.error e, tr) => (.error e, tr)
  | (.ok st, tr) =>
    let res := train env st (targsOf a)
    (res.1.map (fun _ => ()), tr ++ res.2)

/-- The number of positional arguments the module-bottom call main()
supplies. -/
def scriptCallArity : Nat := 0

/-- Whether a Python call binds: every required positional parameter must
receive an argument, else the call raises TypeError before the body runs. -/
def callBinds (required provided : Nat) : Bool := required ≤ provided

/-- The if __name__ == "__main__" entry point: evaluate main() with zero
arguments.  When the call does not bind, Python raises TypeError and the
body of main never starts, whatever arguments it would have received. -/
def scriptEntry (env : Env) (a : MainArgs) : Except Err Unit × List Event :=
  if callBinds mainParams.length scriptCallArity then mainRun env a
  else (.error .typeError, [])

/-- The content of the file at a path after a trace of events: the last
writeFile to that path wins (mode w truncates), no write leaves nothing. -/
def fileContents (tr : List Event) (p : String) : Option String :=
  tr.foldl (fun acc e =>
    match e with
    | .writeFile q c => if q = p then some c else acc
    | _ => acc) none

/-- The events strictly after the close of the run context. -/
def afterClose (tr : List Event) : List Event :=
  (tr.dropWhile (fun e => !e.isCloseRun)).drop 1

/-- A small concrete dataset: one feature column and the label column. -/
def demoTable : Table :=
  ⟨[("alcohol", DType.float64), ("quality", DType.float64)],
   [[1, 5], [2, 6], [3, 5], [4, 7]]⟩

/-- A concrete failure-free environment over the demo dataset. -/
def envOk : Env :=
  { readCsv := fun _ => .ok demoTable
    perm := fun n => (List.range n).reverse
    run_id := "run123"
    experiment_id := "exp1"
    uuid := "uuid1"
    now := "2024-01-01 00:00:00"
    mlflowVersion := "2.0"
    sklearnVersion := "1.2"
    platformStr := "linux"
    pythonVersion := "3.10"
    predictions := [5, 6]
    startTime := 100
    endTime := 200
    failAt := fun _ => none }

/-- A concrete Trainer configuration with a truthy experiment name. -/
def cfgDemo : Config :=
  { experiment_name := some "exp"
    data_path := "wine.csv"
    log_as_onnx := false
    save_signature := true
    run_origin := some "demo"
    use_run_id_as_run_name := false }

/-- A concrete constructed Trainer over the demo data. -/
def stDemo : TrainerState :=
  match (trainerInit envOk cfgDemo).1 with
  | .ok st => st
  | .error _ => ⟨cfgDemo, demoTable, demoTable, demoTable, demoTable⟩

/-- train arguments with no registration, no export, no output path. -/
def argsBase : TrainArgs :=
  ⟨none, "None", false, none, none, 32⟩

/-- train arguments writing the run id to a plain output path. -/
def argsOut : TrainArgs :=
  ⟨none, "None", false, some "/tmp/run_id.txt", none, 32⟩

/-- train arguments whose output path contains dbfs: away from the start. -/
def argsDbfs : TrainArgs :=
  ⟨none, "None", false, some "data/dbfs:out.txt", none, 32⟩

/-- An environment that makes the fit step raise. -/
def envFitFails : Env :=
  { envOk with failAt := fun o => if o = Op.fit then some (Err.external 7) else none }

/-- An environment whose csv file is missing. -/
def envMissing : Env :=
  { envOk with readCsv := fun _ => .error PdError.fileNotFound }

/-- A demo table lacking the label column. -/
def demoTableNoLabel : Table :=
  ⟨[("alcohol", DType.float64), ("ph", DType.float64)], [[1, 3], [2, 4]]⟩

/-- An environment whose csv loads but has no quality column. -/
def envNoLabel : Env :=
  { envOk with readCsv := fun _ => .ok demoTableNoLabel }

/-- Selecting every index of the range of a list in order reproduces the
list. -/
theorem filterMap_range_get {α : Type} (rows : List α) :
    (List.range rows.length).filterMap (fun i => rows.get? i) = rows := by
  induction rows with
  | nil => rfl
  | cons a tl ih =>
    rw [List.length_cons, List.range_succ_eq_map]
    simp only [List.filterMap_cons]
    have h1 : (a :: tl).get? 0 = some a := rfl
    rw [h1, List.filterMap_map]
    have h2 : ((fun i => (a :: tl).get? i) ∘ Nat.succ) = fun i => tl.get? i := by
      funext i
      rfl
    rw [h2, ih]

/-- A successful execution of the body steps emits exactly the
concatenation of the step events. -/
theorem runSteps_ok_trace (env : Env) :
    ∀ (steps : List BodyStep) (tr : List Event),
      runSteps env steps = (.ok (), tr) → tr = (steps.map BodyStep.events).flatten := by
  intro steps
  induction steps with
  | nil =>
    intro tr h
    simp only [runSteps, Prod.mk.injEq] at h
    simp [← h.2]
  | cons s rest ih =>
    intro tr h
    obtain ⟨op, evs⟩ := s
    cases op with
    | none =>
      simp only [runSteps, Prod.mk.injEq] at h
      obtain ⟨h1, h2⟩ := h
      have hrest := ih (runSteps env rest).2 (Prod.mk.injEq _ _ _ _ ▸ ⟨h1, rfl⟩)
      simp only [List.map_cons, List.flatten_cons, ← h2, hrest]
    | some o =>
      cases hf : env.failAt o with
      | some e =>
        simp only [runSteps, hf, Prod.mk.injEq] at h
        exact absurd h.1 (by simp)
      | none =>
        simp only [runSteps, hf, Prod.mk.injEq] at h
        obtain ⟨h1, h2⟩ := h
        have hrest := ih (runSteps env rest).2 (Prod.mk.injEq _ _ _ _ ▸ ⟨h1, rfl⟩)
        simp only [List.map_cons, List.flatten_cons, ← h2, hrest]

/-- A failing execution of the body steps fails with an error some
operation was injected with: the error the caller observes is an original
error of a body operation, not a replacement. -/
theorem runSteps_err_src (env : Env) :
    ∀ (steps : List BodyStep) (e : Err) (tr : List Event),
      runSteps env steps = (.error e, tr) → ∃ o, env.failAt o = some e := by
  intro steps
  induction steps with
  | nil =>
    intro e tr h
    simp only [runSteps, Prod.mk.injEq] at h
    exact absurd h.1 (by simp)
  | cons s rest ih =>
    intro e tr h
    obtain ⟨op, evs⟩ := s
    cases op with
    | none =>
      simp only [runSteps, Prod.mk.injEq] at h
      exact ih e (runSteps env rest).2 (Prod.mk.injEq _ _ _ _ ▸ ⟨h.1, rfl⟩)
    | some o =>
      cases hf : env.failAt o with
      | some e' =>
        simp only [runSteps, hf, Prod.mk.injEq] at h
        have : e' = e := by simpa using h.1
        exact ⟨o, by rw [hf, this]⟩
      | none =>
        simp only [runSteps, hf, Prod.mk.injEq] at h
        exact ih e (runSteps env rest).2 (Prod.mk.injEq _ _ _ _ ▸ ⟨h.1, rfl⟩)

/-- On a successful run, train returns the experiment and run identifiers
and its trace is the body events, the finished close, then the post-close
tags. -/
theorem train_ok_trace (env : Env) (st : TrainerState) (a : TrainArgs)
    (pr : String × String) (tr : List Event)
    (h : train env st a = (.ok pr, tr)) :
    pr = (env.experiment_id, env.run_id) ∧
    tr = bodyTrace env st a ++ Event.closeRun .finished :: postCloseTags env := by
  rw [train] at h
  rcases hr : runSteps env (bodySteps env st a) with ⟨r, btr⟩
  rw [hr] at h
  cases r with
  | error e => simp at h
  | ok u =>
    simp only [Prod.mk.injEq] at h
    obtain ⟨h1, h2⟩ := h
    cases u
    have hb : btr = bodyTrace env st a := runSteps_ok_trace env _ _ hr
    exact ⟨by simpa using h1.symm, by rw [← h2, hb]⟩

/-- On a failing run, train propagates an error injected at a body
operation and its trace is the body prefix followed by the failed close. -/
theorem train_err_trace (env : Env) (st : TrainerState) (a : TrainArgs)
    (e : Err) (tr : List Event)
    (h : train env st a = (.error e, tr)) :
    (∃ o, env.failAt o = some e) ∧
    ∃ btr, tr = btr ++ [Event.closeRun .failed] := by
  rw [train] at h
  rcases hr : runSteps env (bodySteps env st a) with ⟨r, btr⟩
  rw [hr] at h
  cases r with
  | ok u => simp at h
  | error e' =>
    simp only [Prod.mk.injEq] at h
    obtain ⟨h1, h2⟩ := h
    have he : e' = e := by simpa using h1
    subst he
    exact ⟨runSteps_err_src env _ _ _ hr, btr, h2.symm⟩

/-- Body-trace invariant: a body event is never a run close, never a
post-close client tag, never a data read, and every model-logging event
carries exactly the signature the configuration dictates. -/
def bodyInv (env : Env) (st : TrainerState) : Event → Bool
  | .closeRun _ => false
  | .clientSetTag _ _ _ => false
  | .readData _ => false
  | .logModel sg => decide (sg = signatureOf env st)
  | _ => true

/-- Every step of the run body satisfies the body-trace invariant on all
its events. -/
theorem steps_all_bodyInv (env : Env) (st : TrainerState) (a : TrainArgs) :
    ((bodySteps env st a).all
      (fun s => s.events.all (fun e => bodyInv env st e))) = true := by
  simp only [bodySteps, List.all_append, Bool.and_eq_true]
  refine ⟨⟨⟨⟨⟨⟨?_, ?_⟩, ?_⟩, ?_⟩, ?_⟩, ?_⟩, ?_⟩
  · simp [openSteps, bodyInv]
  · simp only [tagSteps, List.all_append, Bool.and_eq_true]
    exact ⟨by split <;> simp [bodyInv], by simp [bodyInv]⟩
  · simp [coreSteps, bodyInv]
  · rw [registerSteps]
    split <;> simp [bodyInv]
  · rw [onnxSteps]
    split <;> simp [bodyInv]
  · simp [plotSteps, bodyInv]
  · rcases houtp : a.output_path with _ | p
    · simp [outputSteps, houtp]
    · by_cases hp : p = "" <;> simp [outputSteps, houtp, hp, bodyInv]

/-- Every event of the body trace satisfies the body-trace invariant. -/
theorem bodyTrace_inv (env : Env) (st : TrainerState) (a : TrainArgs) :
    ∀ e ∈ bodyTrace env st a, bodyInv env st e = true := by
  intro e he
  rw [bodyTrace, List.mem_flatten] at he
  obtain ⟨l, hl, hel⟩ := he
  rw [List.mem_map] at hl
  obtain ⟨s, hs, rfl⟩ := hl
  have hall := steps_all_bodyInv env st a
  rw [List.all_eq_true] at hall
  have hstep := hall s hs
  rw [List.all_eq_true] at hstep
  exact hstep e hel

/-- No body event closes the run context. -/
theorem bodyTrace_no_close (env : Env) (st : TrainerState) (a : TrainArgs) :
    ∀ (s : RunStatus), Event.closeRun s ∉ bodyTrace env st a := by
  intro s hmem
  have := bodyTrace_inv env st a _ hmem
  simp [bodyInv] at this

/-- Dropping up to and including the close event of a trace whose prefix
never closes yields exactly the suffix after the close. -/
theorem afterClose_of_no_close (l rest : List Event) (s : RunStatus)
    (h : ∀ e ∈ l, e.isCloseRun = false) :
    afterClose (l ++ Event.closeRun s :: rest) = rest := by
  induction l with
  | nil => simp [afterClose, List.dropWhile, Event.isCloseRun]
  | cons a tl ih =>
    have ha := h a (by simp)
    have ih2 := ih (fun e he => h e (by simp [he]))
    simp only [afterClose, List.cons_append, List.dropWhile_cons, ha] at ih2 ⊢
    simpa using ih2

/-- The model-logging event, with the configured signature, is among the
body events. -/
theorem logModel_mem_bodyTrace (env : Env) (st : TrainerState) (a : TrainArgs) :
    Event.logModel (signatureOf env st) ∈ bodyTrace env st a := by
  rw [bodyTrace, List.mem_flatten]
  refine ⟨[Event.logModel (signatureOf env st)], ?_, by simp⟩
  rw [List.mem_map]
  refine ⟨⟨some .logModelOp, [Event.logModel (signatureOf env st)]⟩, ?_, rfl⟩
  simp [bodySteps, coreSteps]

/-- With a truthy output path, the body ends with the output-path tag and
the file write of the run id at the fully rewritten path. -/
theorem bodyTrace_output_split (env : Env) (st : TrainerState) (a : TrainArgs)
    (p : String) (hp : a.output_path = some p) (hne : p ≠ "") :
    ∃ B, bodyTrace env st a =
      B ++ [Event.setTag "output_path" (.str p),
            Event.writeFile (replace_dbfs p) env.run_id] := by
  refine ⟨(((openSteps env st.cfg ++ tagSteps env st.cfg a ++ coreSteps env st a ++
      registerSteps a ++ onnxSteps st.cfg a ++ plotSteps).map BodyStep.events).flatten), ?_⟩
  rw [bodyTrace, bodySteps]
  rw [List.map_append, List.flatten_append]
  simp [outputSteps, hp, hne]

/-- No body event satisfies the close predicate. -/
theorem bodyTrace_isClose_false (env : Env) (st : TrainerState) (a : TrainArgs) :
    ∀ e ∈ bodyTrace env st a, e.isCloseRun = false := by
  intro e he
  cases e <;> try rfl
  exact absurd he (bodyTrace_no_close env st a _)

/-- C1: for every training configuration and every error raised in the run
body, Trainer.train propagates that original error to its caller, and the
run context is closed (marked failed) before the caller observes the
error: the failed close is the final event of the trace the caller sees. -/
theorem train_error_propagates_after_close (env : Env) (st : TrainerState)
    (a : TrainArgs) (e : Err) (tr : List Event)
    (h : train env st a = (.error e, tr)) :
    (∃ o, env.failAt o = some e) ∧
    tr.getLast? = some (Event.closeRun .failed) := by
  obtain ⟨hsrc, btr, rfl⟩ := train_err_trace env st a e tr h
  exact ⟨hsrc, List.getLast?_concat btr⟩

/-- Witness for C1 at a concrete run whose fit step raises. -/
theorem train_error_propagates_after_close_witness :
    train envFitFails stDemo argsBase =
      (.error (Err.external 7), (train envFitFails stDemo argsBase).2) ∧
    ((∃ o, envFitFails.failAt o = some (Err.external 7)) ∧
     ((train envFitFails stDemo argsBase).2).getLast? =
       some (Event.closeRun .failed)) :=
  ⟨rfl, train_error_propagates_after_close envFitFails stDemo argsBase
    (Err.external 7) ((train envFitFails stDemo argsBase).2) rfl⟩

/-- Counterexample for C2 as stated: on a concrete successful run the four
post-close tags never include a second-precision formatted variant (both
formatted variants use the millisecond rendering). -/
theorem post_close_seconds_cex :
    ¬ ((afterClose ((train envOk stDemo argsBase).2)).length = 4 ∧
       (∃ e ∈ afterClose ((train envOk stDemo argsBase).2), e.hasRawTag = true) ∧
       (∃ e ∈ afterClose ((train envOk stDemo argsBase).2), e.hasSecondsFmt = true) ∧
       (∃ e ∈ afterClose ((train envOk stDemo argsBase).2), e.hasMillisFmt = true)) := by
  decide

/-- C2 amended: after a normal completion the controller re-reads the
closed run timestamps and writes exactly four additional tags: the raw
start time, the raw end time, and two formatted variants both at
millisecond precision (of the start and of the end). -/
theorem post_close_tags_raw_and_millis (env : Env) (st : TrainerState)
    (a : TrainArgs) (pr : String × String) (tr : List Event)
    (h : train env st a = (.ok pr, tr)) :
    afterClose tr = postCloseTags env ∧
    postCloseTags env =
      [Event.clientSetTag env.run_id "run.info.start_time" (.raw env.startTime),
       Event.clientSetTag env.run_id "run.info.end_time" (.raw env.endTime),
       Event.clientSetTag env.run_id "run.info._start_time" (.fmtMillis env.startTime),
       Event.clientSetTag env.run_id "run.info._end_time" (.fmtMillis env.endTime)] := by
  obtain ⟨-, rfl⟩ := train_ok_trace env st a pr tr h
  exact ⟨afterClose_of_no_close _ _ _ (bodyTrace_isClose_false env st a), rfl⟩

/-- Witness for the amended C2 at a concrete successful run. -/
theorem post_close_tags_raw_and_millis_witness :
    afterClose ((train envOk stDemo argsBase).2) = postCloseTags envOk :=
  (post_close_tags_raw_and_millis envOk stDemo argsBase ("exp1", "run123")
    ((train envOk stDemo argsBase).2) rfl).1

/-- Counterexample for C3 as stated: on a concrete successful run with an
output path, the file write appears at index 22 of the trace and the close
of the run context at index 23, so the write is not ordered after the
close. -/
theorem output_write_after_close_cex :
    ¬ (∀ (i j : Nat) (p c : String) (s : RunStatus),
        ((train envOk stDemo argsOut).2).get? i = some (Event.writeFile p c) →
        ((train envOk stDemo argsOut).2).get? j = some (Event.closeRun s) →
        j < i) := by
  intro h
  have := h 22 23 "/tmp/run_id.txt" "run123" RunStatus.finished rfl rfl
  omega

/-- C3 amended: for every run given a truthy output path, the write of the
run identifier happens inside the run body, strictly before the OPEN to
CLOSED transition: the trace splits at the close event and the file write
belongs to the body segment, which contains no close. -/
theorem output_write_before_close (env : Env) (st : TrainerState)
    (a : TrainArgs) (p : String) (pr : String × String) (tr : List Event)
    (hp : a.output_path = some p) (hne : p ≠ "")
    (h : train env st a = (.ok pr, tr)) :
    ∃ B, tr = B ++ Event.closeRun .finished :: postCloseTags env ∧
      Event.writeFile (replace_dbfs p) env.run_id ∈ B ∧
      ∀ s, Event.closeRun s ∉ B := by
  obtain ⟨-, rfl⟩ := train_ok_trace env st a pr tr h
  refine ⟨bodyTrace env st a, rfl, ?_, bodyTrace_no_close env st a⟩
  obtain ⟨B, hB⟩ := bodyTrace_output_split env st a p hp hne
  rw [hB]
  simp

/-- Witness for the amended C3 at a concrete successful run. -/
theorem output_write_before_close_witness :
    argsOut.output_path = some "/tmp/run_id.txt" ∧
    ∃ B, (train envOk stDemo argsOut).2 =
        B ++ Event.closeRun .finished :: postCloseTags envOk ∧
      Event.writeFile (replace_dbfs "/tmp/run_id.txt") envOk.run_id ∈ B ∧
      ∀ s, Event.closeRun s ∉ B :=
  ⟨rfl, output_write_before_close envOk stDemo argsOut "/tmp/run_id.txt"
    ("exp1", "run123") ((train envOk stDemo argsOut).2) rfl (by decide) rfl⟩

/-- Counterexample for C4 as stated: with the concrete output path
data/dbfs:out.txt, whose dbfs: occurrence is not a leading prefix, the run
succeeds and returns run123, yet the file at the path normalized as the
claim words it (leading prefix only, hence unchanged) does not hold the
run identifier: the source rewrites every occurrence and writes elsewhere. -/
theorem output_spec_path_cex :
    (train envOk stDemo argsDbfs).1 = .ok ("exp1", "run123") ∧
    fileContents ((train envOk stDemo argsDbfs).2)
      (spec_normalize "data/dbfs:out.txt") ≠ some "run123" := by
  exact ⟨rfl, by decide⟩

/-- C4 amended: for every run given a truthy output path, after train
returns the file at the path with every occurrence of dbfs: rewritten to
/dbfs contains exactly the run identifier that train returns. -/
theorem output_file_contains_run_id (env : Env) (st : TrainerState)
    (a : TrainArgs) (p : String) (pr : String × String) (tr : List Event)
    (hp : a.output_path = some p) (hne : p ≠ "")
    (h : train env st a = (.ok pr, tr)) :
    fileContents tr (replace_dbfs p) = some env.run_id ∧ pr.2 = env.run_id := by
  obtain ⟨hpr, rfl⟩ := train_ok_trace env st a pr tr h
  refine ⟨?_, by rw [hpr]⟩
  obtain ⟨B, hB⟩ := bodyTrace_output_split env st a p hp hne
  rw [hB]
  rw [fileContents, List.append_assoc, List.foldl_append, List.foldl_append]
  simp [postCloseTags]

/-- Witness for the amended C4 at a concrete successful run. -/
theorem output_file_contains_run_id_witness :
    argsOut.output_path = some "/tmp/run_id.txt" ∧
    fileContents ((train envOk stDemo argsOut).2)
      (replace_dbfs "/tmp/run_id.txt") = some envOk.run_id :=
  ⟨rfl, (output_file_contains_run_id envOk stDemo argsOut "/tmp/run_id.txt"
    ("exp1", "run123") ((train envOk stDemo argsOut).2) rfl (by decide) rfl).1⟩

/-- Counterexample for C5 as stated: with a concrete missing input file,
data preparation fails with the raw pandas FileNotFoundError, which is not
the DataLoadError the claim names (no such type exists in the source). -/
theorem build_data_dataloaderror_cex :
    (build_data envMissing "wine.csv").1 = .error (.pandas .fileNotFound) ∧
    Err.pandas .fileNotFound ≠ Err.dataLoadError := by
  exact ⟨rfl, by decide⟩

/-- C5 amended: Trainer._build_data propagates the raw pandas loader error
(FileNotFoundError or ParserError) when the file is missing or malformed,
and fails with the raw KeyError on the label quality when that column is
absent from the loaded table; no custom taxonomy wraps these errors. -/
theorem build_data_error_types :
    (∀ (env : Env) (path : String) (pe : PdError),
      env.readCsv path = .error pe →
      (build_data env path).1 = .error (.pandas pe)) ∧
    (∀ (env : Env) (path : String) (t : Table),
      env.readCsv path = .ok t → col_label ∉ t.colNames →
      (build_data env path).1 = .error (.keyError col_label)) := by
  constructor
  · intro env path pe h
    simp [build_data, h]
  · intro env path t h hq
    have hd : dropCol ⟨t.cols, (train_test_split t.rows (env.perm t.rows.length)).1⟩
        col_label = .error (.keyError col_label) := by
      rw [dropCol, if_neg]
      intro hc
      exact hq (by simpa [Table.colNames] using hc)
    simp [build_data, h, hd, Bind.bind, Except.bind]

/-- Witness for the amended C5 at a concrete missing file and a concrete
table lacking the label column. -/
theorem build_data_error_types_witness :
    (envMissing.readCsv "wine.csv" = .error .fileNotFound ∧
     (build_data envMissing "wine.csv").1 = .error (.pandas .fileNotFound)) ∧
    (envNoLabel.readCsv "wine.csv" = .ok demoTableNoLabel ∧
     col_label ∉ demoTableNoLabel.colNames ∧
     (build_data envNoLabel "wine.csv").1 = .error (.keyError col_label)) :=
  ⟨⟨rfl, build_data_error_types.1 envMissing "wine.csv" .fileNotFound rfl⟩,
   ⟨rfl, by decide,
    build_data_error_types.2 envNoLabel "wine.csv" demoTableNoLabel rfl (by decide)⟩⟩

/-- C6: for every dataset and every seeded index permutation, the train
and test partitions produced by train_test_split are row-disjoint (their
index lists share no index) and their union, as a multiset of rows, is the
original dataset; for a 1000-row dataset the test partition has exactly
300 rows and the train partition 700. -/
theorem split_disjoint_union {α : Type} (rows : List α) (perm : List Nat)
    (h : perm.Perm (List.range rows.length)) :
    List.Disjoint (perm.take (testCount rows.length))
      (perm.drop (testCount rows.length)) ∧
    ((train_test_split rows perm).2 ++ (train_test_split rows perm).1).Perm rows ∧
    (rows.length = 1000 →
      (train_test_split rows perm).2.length = 300 ∧
      (train_test_split rows perm).1.length = 700) := by
  have hnd : perm.Nodup := h.nodup_iff.mpr (List.nodup_range _)
  have hshuf : (perm.filterMap (fun i => rows.get? i)).Perm rows := by
    have h1 := h.filterMap (fun i => rows.get? i)
    rwa [filterMap_range_get rows] at h1
  refine ⟨List.disjoint_take_drop hnd le_rfl, ?_, ?_⟩
  · show ((perm.filterMap (fun i => rows.get? i)).take (testCount rows.length) ++
      (perm.filterMap (fun i => rows.get? i)).drop (testCount rows.length)).Perm rows
    rw [List.take_append_drop]
    exact hshuf
  · intro hlen
    have hsl : (perm.filterMap (fun i => rows.get? i)).length = 1000 := by
      rw [hshuf.length_eq, hlen]
    have hk : testCount rows.length = 300 := by rw [hlen]; rfl
    constructor
    · show ((perm.filterMap (fun i => rows.get? i)).take (testCount rows.length)).length = 300
      rw [List.length_take, hk, hsl]
      decide
    · show ((perm.filterMap (fun i => rows.get? i)).drop (testCount rows.length)).length = 700
      rw [List.length_drop, hk, hsl]

/-- Witness for C6 at a concrete 1000-row dataset with the identity
permutation. -/
theorem split_disjoint_union_witness :
    (List.range 1000).Perm (List.range (List.range 1000).length) ∧
    (List.Disjoint ((List.range 1000).take (testCount (List.range 1000).length))
      ((List.range 1000).drop (testCount (List.range 1000).length)) ∧
    ((train_test_split (List.range 1000) (List.range 1000)).2 ++
      (train_test_split (List.range 1000) (List.range 1000)).1).Perm
        (List.range 1000) ∧
    ((List.range 1000).length = 1000 →
      (train_test_split (List.range 1000) (List.range 1000)).2.length = 300 ∧
      (train_test_split (List.range 1000) (List.range 1000)).1.length = 700)) := by
  have hp : (List.range 1000).Perm (List.range (List.range 1000).length) := by
    rw [List.length_range]
  exact ⟨hp, split_disjoint_union (List.range 1000) (List.range 1000) hp⟩

/-- C7: for all prediction and truth vectors of equal length, the rmse
value the run logs, np.sqrt of the sklearn mean squared error, equals the
square root of the mean of the squared differences of predictions and
truths exactly. -/
theorem rmse_formula (yt yp : List ℚ) (h : yt.length = yp.length) :
    rmse yt yp =
      Real.sqrt ((((List.zipWith (fun p t => (p - t) ^ 2) yp yt).sum : ℚ) : ℝ) /
        (yp.length : ℝ)) := by
  rw [rmse, mean_squared_error]
  congr 1
  push_cast
  rw [h]
  congr 2
  rw [List.zipWith_comm]
  have hfun : (fun (b a : ℚ) => (a - b) ^ 2) = fun (p t : ℚ) => (p - t) ^ 2 := by
    funext a b
    ring
  rw [hfun]

/-- Witness for C7 at concrete equal-length vectors. -/
theorem rmse_formula_witness :
    (([1, 2] : List ℚ).length = ([3, 5] : List ℚ).length) ∧
    rmse [1, 2] [3, 5] =
      Real.sqrt ((((List.zipWith (fun p t => (p - t) ^ 2)
        ([3, 5] : List ℚ) ([1, 2] : List ℚ)).sum : ℚ) : ℝ) /
        (([3, 5] : List ℚ).length : ℝ)) :=
  ⟨rfl, rmse_formula [1, 2] [3, 5] rfl⟩

/-- C8: on every successful run the model is persisted exactly once, with
no signature when save_signature is false, and with the signature inferred
from the training features and the holdout predictions when it is true;
that signature records as its input schema exactly the training feature
columns with their names and dtypes. -/
theorem signature_logging (env : Env) (st : TrainerState) (a : TrainArgs)
    (pr : String × String) (tr : List Event)
    (h : train env st a = (.ok pr, tr)) :
    Event.logModel (signatureOf env st) ∈ tr ∧
    (∀ sg, Event.logModel sg ∈ tr → sg = signatureOf env st) ∧
    (st.cfg.save_signature = false → signatureOf env st = none) ∧
    (st.cfg.save_signature = true →
      signatureOf env st = some (infer_signature st.X_train env.predictions) ∧
      (infer_signature st.X_train env.predictions).inputs = st.X_train.cols) := by
  obtain ⟨-, rfl⟩ := train_ok_trace env st a pr tr h
  refine ⟨List.mem_append_left _ (logModel_mem_bodyTrace env st a), ?_, ?_, ?_⟩
  · intro sg hmem
    rcases List.mem_append.mp hmem with hb | hc
    · have := bodyTrace_inv env st a _ hb
      simpa [bodyInv] using this
    · simp [postCloseTags] at hc
  · intro hs
    simp [signatureOf, hs]
  · intro hs
    exact ⟨by simp [signatureOf, hs], rfl⟩

/-- Witness for C8 at a concrete successful run with save_signature
enabled. -/
theorem signature_logging_witness :
    stDemo.cfg.save_signature = true ∧
    Event.logModel (signatureOf envOk stDemo) ∈ (train envOk stDemo argsBase).2 ∧
    signatureOf envOk stDemo =
      some (infer_signature stDemo.X_train envOk.predictions) ∧
    (infer_signature stDemo.X_train envOk.predictions).inputs = stDemo.X_train.cols := by
  have h := signature_logging envOk stDemo argsBase ("exp1", "run123")
    ((train envOk stDemo argsBase).2) rfl
  exact ⟨rfl, h.1, h.2.2.2 rfl⟩

/-- C9: main declares twelve required positional parameters and the module
entry point invokes it with zero arguments, so direct script execution
raises TypeError before any dataset is loaded or any run is started: the
result is the TypeError with an empty effect trace, whatever argument
values main would otherwise have received. -/
theorem script_entry_always_fails :
    mainParams.length = 12 ∧
    ∀ (env : Env) (a : MainArgs),
      scriptEntry env a = (.error Err.typeError, []) := by
  refine ⟨rfl, fun env a => ?_⟩
  simp [scriptEntry, callBinds, scriptCallArity, mainParams]

/-- The events emitted by data building are exactly the read of the data
path, whatever its outcome. -/
theorem build_data_events (env : Env) (p : String) :
    (build_data env p).2 = [Event.readData p] := by
  cases h : env.readCsv p <;> simp [build_data, h]

/-- C10: when the experiment name is None or empty, Trainer construction
performs no experiment selection and writes no experiment-level tags; when
a truthy experiment name is supplied and construction succeeds, the
experiment is selected and both experiment-level tags are written. -/
theorem experiment_effects_iff_name (env : Env) (cfg : Config) :
    ((cfg.experiment_name = none ∨ cfg.experiment_name = some "") →
      ∀ e ∈ (trainerInit env cfg).2, e.isExperimentEvent = false) ∧
    (∀ s, cfg.experiment_name = some s → s ≠ "" →
      ∀ st, (trainerInit env cfg).1 = .ok st →
        Event.setExperiment s ∈ (trainerInit env cfg).2 ∧
        Event.setExpTag "version_mlflow" env.mlflowVersion ∈ (trainerInit env cfg).2 ∧
        Event.setExpTag "experiment_created" env.now ∈ (trainerInit env cfg).2) := by
  have hevs := build_data_events env cfg.data_path
  constructor
  · intro hname e he
    rcases hb : build_data env cfg.data_path with ⟨r, evs⟩
    have hevs2 : evs = [Event.readData cfg.data_path] := by
      rw [hb] at hevs
      exact hevs
    cases r with
    | error err =>
      rw [trainerInit, hb, hevs2] at he
      simp at he
      simp [he, Event.isExperimentEvent]
    | ok v =>
      obtain ⟨xtr, xte, ytr, yte⟩ := v
      rw [trainerInit, hb, hevs2] at he
      have hinit : initEvents env cfg = [] := by
        rcases hname with hn | hn <;> simp [initEvents, truthyOpt, hn]
      rw [hinit] at he
      simp at he
      simp [he, Event.isExperimentEvent]
  · intro s hs hne st hok
    rcases hb : build_data env cfg.data_path with ⟨r, evs⟩
    have hevs2 : evs = [Event.readData cfg.data_path] := by
      rw [hb] at hevs
      exact hevs
    cases r with
    | error err =>
      rw [trainerInit, hb] at hok
      simp at hok
    | ok v =>
      obtain ⟨xtr, xte, ytr, yte⟩ := v
      rw [trainerInit, hb, hevs2]
      simp [initEvents, truthyOpt, hs, hne]

/-- A concrete Trainer configuration with experiment name None. -/
def cfgNone : Config := { cfgDemo with experiment_name := none }

/-- Witness for C10: a concrete falsy configuration writes no experiment
events, a concrete truthy configuration writes the selection and both
tags. -/
theorem experiment_effects_iff_name_witness :
    (∀ e ∈ (trainerInit envOk cfgNone).2, e.isExperimentEvent = false) ∧
    (Event.setExperiment "exp" ∈ (trainerInit envOk cfgDemo).2 ∧
     Event.setExpTag "version_mlflow" envOk.mlflowVersion ∈ (trainerInit envOk cfgDemo).2 ∧
     Event.setExpTag "experiment_created" envOk.now ∈ (trainerInit envOk cfgDemo).2) :=
  ⟨(experiment_effects_iff_name envOk cfgNone).1 (Or.inl rfl),
   (experiment_effects_iff_name envOk cfgDemo).2 "exp" rfl (by decide) stDemo rfl⟩
